import Mathlib

/-!
Verification of the Data-Warehouse ETL framework core against its
natural-language specification.

The development shallowly embeds the three core components:

1. the watermark/window calculator, from the method
   EtlAuditManager._calculate_etl_window (the revision in
   src/etls/utilities/etl_audit_manager.py; the revisions in
   gleif_1_lei_records and financial_data_1_ethereum have the same
   branch structure for everything stated here);
2. the task orchestrators, from
   financial_data_1_ethereum/script_runner/run_script.py (main) and
   gleif_1_lei_records/script_runner/script_runner.py (main);
3. the stage-and-merge loader, from
   financial_data_1_ethereum/connectors/postgresql_connector.py
   (upload_to_pg) and the worker wrapper
   financial_data_1_ethereum/custom_code/script_worker.py (upload_to_dwh),
   together with the date-range clamping helper
   src/etls/utilities/etl_utils.py (process_dataframe_date_ranges).

Timestamps are modelled as integers counting seconds since the Unix
epoch; a Python timedelta of n days is n * 86400 seconds.  Python
exceptions are modelled with Except / Option result types.
-/

namespace DataWarehouse

/-- Number of seconds in one day: timedelta(days=1) in seconds. -/
def secondsPerDay : Int := 86400

/--
Arguments of EtlAuditManager._calculate_etl_window.  The previous-max-date
query result is modelled as the optional timestamp it produces: none when
the query returned no row or a null value (code step 2).  The forced start
date arrives already parsed (strptime parsing of the raw string is done
inside the method and its failure mode is the caller's concern per the
spec); none models both a None and an empty string, which are equally
falsy in the Python truthiness test.
-/
structure WindowArgs where
  prevMaxDate : Option Int
  nowUtc : Int
  maxDaysToLoad : Int
  incrementSdt : Bool
  loadType : String
  forcedSdt : Option Int
deriving Repr, DecidableEq

/--
Embedding of EtlAuditManager._calculate_etl_window
(src/etls/utilities/etl_audit_manager.py, lines 187-223).  The two
arguments sdt0 and edt0 are the values of the mutable fields self.sdt and
self.edt before the call (both None on a freshly constructed manager);
the method ends with an unconditional return of self.sdt, self.edt, so
when neither the F branch nor the I branch fires the pre-call field
values are returned unchanged and no exception is raised.  A raised
ValueError is modelled as Except.error carrying the message.
-/
def calculateEtlWindow (sdt0 edt0 : Option Int) (a : WindowArgs) :
    Except String (Option Int × Option Int) :=
  if a.loadType = "F" then
    match a.forcedSdt with
    | some f =>
        Except.ok (some f, some (f + secondsPerDay * a.maxDaysToLoad))
    | none =>
        match a.prevMaxDate with
        | some p =>
            Except.ok (some p, some (p + secondsPerDay * a.maxDaysToLoad))
        | none =>
            Except.error "F mode requires either a forced_sdt or a previous max date."
  else
    match a.prevMaxDate with
    | some p =>
        if a.loadType = "I" then
          let sdt := if a.incrementSdt then p + secondsPerDay else p
          let maxWindowEnd := sdt + secondsPerDay * a.maxDaysToLoad
          Except.ok (some sdt, some (min a.nowUtc maxWindowEnd))
        else
          Except.ok (sdt0, edt0)
    | none =>
        Except.ok (sdt0, edt0)

/--
C1 counterexample.  The claim says a call in INCREMENTAL mode with no
previous high-water mark raises; on the code it does not raise: the I
branch is guarded by load_type == I AND self.prev_max_date, so the call
falls through both branches and returns the untouched field values
(None, None) as a normal, non-raising return.
-/
theorem calculateEtlWindow_incremental_no_history_returns :
    calculateEtlWindow none none
      { prevMaxDate := none, nowUtc := 0, maxDaysToLoad := 365,
        incrementSdt := false, loadType := "I", forcedSdt := none }
      = Except.ok (none, none) := by
  rfl

/--
C1 amended: the calculator raises exactly when called in FULL mode with
neither a forced start date nor a previous high-water mark; in
INCREMENTAL mode with no previous mark it does not raise but silently
returns the manager's pre-call (sdt, edt) field values, which are
(none, none) on a fresh manager; every other call in a valid mode
returns a window without raising.
-/
theorem calculateEtlWindow_raise_characterization
    (sdt0 edt0 : Option Int) (nowUtc maxDays f p : Int) (inc : Bool) :
    (calculateEtlWindow sdt0 edt0
        { prevMaxDate := none, nowUtc := nowUtc, maxDaysToLoad := maxDays,
          incrementSdt := inc, loadType := "F", forcedSdt := none }
      = Except.error "F mode requires either a forced_sdt or a previous max date.")
    ∧ (∀ op : Option Int, calculateEtlWindow sdt0 edt0
        { prevMaxDate := op, nowUtc := nowUtc, maxDaysToLoad := maxDays,
          incrementSdt := inc, loadType := "F", forcedSdt := some f }
      = Except.ok (some f, some (f + secondsPerDay * maxDays)))
    ∧ (calculateEtlWindow sdt0 edt0
        { prevMaxDate := some p, nowUtc := nowUtc, maxDaysToLoad := maxDays,
          incrementSdt := inc, loadType := "F", forcedSdt := none }
      = Except.ok (some p, some (p + secondsPerDay * maxDays)))
    ∧ (calculateEtlWindow sdt0 edt0
        { prevMaxDate := some p, nowUtc := nowUtc, maxDaysToLoad := maxDays,
          incrementSdt := inc, loadType := "I", forcedSdt := none }
      = Except.ok (some (if inc then p + secondsPerDay else p),
          some (min nowUtc ((if inc then p + secondsPerDay else p)
                  + secondsPerDay * maxDays))))
    ∧ (calculateEtlWindow sdt0 edt0
        { prevMaxDate := none, nowUtc := nowUtc, maxDaysToLoad := maxDays,
          incrementSdt := inc, loadType := "I", forcedSdt := none }
      = Except.ok (sdt0, edt0)) := by
  refine ⟨rfl, fun op => ?_, rfl, rfl, rfl⟩
  cases op <;> rfl

/--
C2 counterexample.  The claim says every returned window satisfies
window_end >= window_start for any max_window_days >= 0; but in
INCREMENTAL mode with previous mark 0, increment_by_one_day true,
max_days 5 and now = 43200 (half a day past the mark), the code returns
window_start = 86400 and window_end = min(now, start + 5 days) = 43200,
so window_end < window_start.
-/
theorem calculateEtlWindow_end_lt_start_example :
    calculateEtlWindow none none
      { prevMaxDate := some 0, nowUtc := 43200, maxDaysToLoad := 5,
        incrementSdt := true, loadType := "I", forcedSdt := none }
      = Except.ok (some 86400, some 43200)
    ∧ (43200 : Int) < 86400 := by
  exact ⟨by rfl, by decide⟩

/--
C2 amended: with max_window_days >= 0, window_end >= window_start holds
for every FULL-mode window, and for every INCREMENTAL-mode window whose
window_start does not lie in the future; when window_start > now the
incremental window_end is capped to now and is strictly below
window_start, yielding a negative-length (empty) window.
-/
theorem calculateEtlWindow_end_ge_start
    (sdt0 edt0 : Option Int) (nowUtc maxDays f p : Int) (inc : Bool)
    (hm : 0 ≤ maxDays) :
    (∀ op : Option Int, calculateEtlWindow sdt0 edt0
        { prevMaxDate := op, nowUtc := nowUtc, maxDaysToLoad := maxDays,
          incrementSdt := inc, loadType := "F", forcedSdt := some f }
      = Except.ok (some f, some (f + secondsPerDay * maxDays))
      ∧ f ≤ f + secondsPerDay * maxDays)
    ∧ (calculateEtlWindow sdt0 edt0
        { prevMaxDate := some p, nowUtc := nowUtc, maxDaysToLoad := maxDays,
          incrementSdt := inc, loadType := "F", forcedSdt := none }
      = Except.ok (some p, some (p + secondsPerDay * maxDays))
      ∧ p ≤ p + secondsPerDay * maxDays)
    ∧ ((if inc then p + secondsPerDay else p) ≤ nowUtc →
        ∀ s e : Int, calculateEtlWindow sdt0 edt0
          { prevMaxDate := some p, nowUtc := nowUtc, maxDaysToLoad := maxDays,
            incrementSdt := inc, loadType := "I", forcedSdt := none }
          = Except.ok (some s, some e) → s ≤ e)
    ∧ (nowUtc < (if inc then p + secondsPerDay else p) →
        ∀ s e : Int, calculateEtlWindow sdt0 edt0
          { prevMaxDate := some p, nowUtc := nowUtc, maxDaysToLoad := maxDays,
            incrementSdt := inc, loadType := "I", forcedSdt := none }
          = Except.ok (some s, some e) → e = nowUtc ∧ e < s) := by
  have hday : (0 : Int) ≤ secondsPerDay * maxDays := by
    have : (0 : Int) ≤ secondsPerDay := by decide
    exact mul_nonneg this hm
  refine ⟨fun op => ⟨?_, by omega⟩, ⟨rfl, by omega⟩, ?_, ?_⟩
  · cases op <;> rfl
  · intro hle s e heq
    have heq' : (some (if inc then p + secondsPerDay else p),
        some (min nowUtc ((if inc then p + secondsPerDay else p)
          + secondsPerDay * maxDays))) = ((some s, some e) : Option Int × Option Int) := by
      exact Except.ok.inj (by rw [← heq]; rfl)
    have hs : (if inc then p + secondsPerDay else p) = s := by
      have := congrArg Prod.fst heq'
      simpa using this
    have he : min nowUtc ((if inc then p + secondsPerDay else p)
        + secondsPerDay * maxDays) = e := by
      have := congrArg Prod.snd heq'
      simpa using this
    rw [← hs, ← he]
    exact le_min hle (by omega)
  · intro hlt s e heq
    have heq' : (some (if inc then p + secondsPerDay else p),
        some (min nowUtc ((if inc then p + secondsPerDay else p)
          + secondsPerDay * maxDays))) = ((some s, some e) : Option Int × Option Int) := by
      exact Except.ok.inj (by rw [← heq]; rfl)
    have hs : (if inc then p + secondsPerDay else p) = s := by
      have := congrArg Prod.fst heq'
      simpa using this
    have he : min nowUtc ((if inc then p + secondsPerDay else p)
        + secondsPerDay * maxDays) = e := by
      have := congrArg Prod.snd heq'
      simpa using this
    rw [← hs, ← he]
    constructor
    · exact min_eq_left (by omega)
    · have hmin := min_le_left nowUtc
        ((if inc then p + secondsPerDay else p) + secondsPerDay * maxDays)
      omega

/--
C2 amended witness: the amended theorem applied at the concrete inputs
now = 43200, max_days 5, previous mark 0 without day increment, where
window_start = 0 <= now, yielding window_end >= window_start.
-/
theorem calculateEtlWindow_end_ge_start_witness :
    (0 : Int) ≤ 43200
    ∧ ∀ s e : Int, calculateEtlWindow none none
        { prevMaxDate := some 0, nowUtc := 43200, maxDaysToLoad := 5,
          incrementSdt := false, loadType := "I", forcedSdt := none }
        = Except.ok (some s, some e) → s ≤ e := by
  refine ⟨by decide, ?_⟩
  have h := (calculateEtlWindow_end_ge_start none none 43200 5 0 0 false
    (by decide)).2.2.1
  simpa using h (by decide)

/--
C4: in INCREMENTAL mode with a previous high-water mark present,
window_start is the previous mark plus one day when increment_by_one_day
is set and the mark itself otherwise, and window_end is the minimum of
now and window_start plus max_window_days; instantiated at the spec's
end-to-end example (2026-01-01T00:00:00Z mark, 30-day cap, increment on,
now 2026-01-10T00:00:00Z, all as epoch seconds) this gives
window_start 2026-01-02T00:00:00Z and window_end 2026-01-10T00:00:00Z.
-/
theorem calculateEtlWindow_incremental
    (sdt0 edt0 : Option Int) (p nowUtc maxDays : Int) (inc : Bool)
    (fs : Option Int) :
    calculateEtlWindow sdt0 edt0
      { prevMaxDate := some p, nowUtc := nowUtc, maxDaysToLoad := maxDays,
        incrementSdt := inc, loadType := "I", forcedSdt := fs }
      = Except.ok (some (if inc then p + secondsPerDay else p),
          some (min nowUtc ((if inc then p + secondsPerDay else p)
                  + secondsPerDay * maxDays)))
    ∧ calculateEtlWindow none none
      { prevMaxDate := some 1767225600, nowUtc := 1768003200,
        maxDaysToLoad := 30, incrementSdt := true, loadType := "I",
        forcedSdt := none }
      = Except.ok (some 1767312000, some 1768003200) := by
  constructor
  · rfl
  · rfl

/-! ## Task orchestrators -/

/-- Outcome status a task can be recorded with during a run. -/
inductive TaskStatus where
  | disabled
  | skipped
  | succeeded
  | failed
deriving Repr, DecidableEq

/--
A task dictionary as consumed by the orchestrators: name, enabled flag,
optional dependency (the name of a prior task that must have succeeded),
retry count, and the zero-argument action.  The action is modelled as a
function from the attempt index to whether that invocation succeeds
(true) or raises (false).
-/
structure TaskSpec where
  taskName : String
  enabled : Bool
  dependsOn : Option String
  retries : Nat
  action : Nat → Bool

/-- Record of one processed task: its name, recorded status, and how many
times its action was invoked (0 for disabled or skipped tasks). -/
structure TaskOutcome where
  taskName : String
  status : TaskStatus
  attempts : Nat
deriving Repr, DecidableEq

/-- Result of a run: the outcomes of the tasks the loop processed (in
order; tasks after a halt have no outcome and were never invoked), the
final success_registry, and the final overall success flag. -/
structure RunResult where
  outcomes : List TaskOutcome
  registry : List String
  success : Bool
deriving Repr, DecidableEq

/--
The Python dependency test if t_dep and (t_dep not in success_registry):
a None or empty-string depends_on is falsy and imposes no dependency.
-/
def depUnmet (dep : Option String) (registry : List String) : Bool :=
  match dep with
  | none => false
  | some d => (d != "") && !(registry.contains d)

/--
The retry loop for attempt in range(0, retries + 1) common to both
orchestrators: a is the index of the current attempt, the second
argument the number of attempts still allowed after it.  Returns whether
some attempt succeeded together with the number of attempts made.
Entered at attemptLoop action 0 retries.
-/
def attemptLoop (action : Nat → Bool) (a : Nat) : Nat → Bool × Nat
  | 0 => (action a, a + 1)
  | remaining + 1 =>
      if action a then (true, a + 1)
      else attemptLoop action (a + 1) remaining

/--
Embedding of main from
financial_data_1_ethereum/script_runner/run_script.py (lines 104-199).
Disabled task: recorded, loop continues.  Unmet dependency: recorded as
skipped, overall success set to false, loop continues.  Otherwise the
retry loop runs; on success the task joins the registry and the loop
continues; if every attempt failed the run records the failure and
breaks out of the task loop (success false, remaining tasks untouched).
-/
def runScriptTasks : List TaskSpec → List String → Bool → RunResult
  | [], registry, success => ⟨[], registry, success⟩
  | t :: rest, registry, success =>
    if t.enabled = false then
      let r := runScriptTasks rest registry success
      ⟨⟨t.taskName, TaskStatus.disabled, 0⟩ :: r.outcomes, r.registry, r.success⟩
    else if depUnmet t.dependsOn registry then
      let r := runScriptTasks rest registry false
      ⟨⟨t.taskName, TaskStatus.skipped, 0⟩ :: r.outcomes, r.registry, r.success⟩
    else
      let res := attemptLoop t.action 0 t.retries
      if res.1 then
        let r := runScriptTasks rest (t.taskName :: registry) success
        ⟨⟨t.taskName, TaskStatus.succeeded, res.2⟩ :: r.outcomes, r.registry, r.success⟩
      else
        ⟨[⟨t.taskName, TaskStatus.failed, res.2⟩], registry, false⟩

/--
Embedding of main from
gleif_1_lei_records/script_runner/script_runner.py (lines 19-91).  Same
shape as runScriptTasks except the dependency branch: an unmet
dependency sets success to false and breaks out of the loop immediately
instead of continuing with the next task.
-/
def scriptRunnerTasks : List TaskSpec → List String → Bool → RunResult
  | [], registry, success => ⟨[], registry, success⟩
  | t :: rest, registry, success =>
    if t.enabled = false then
      let r := scriptRunnerTasks rest registry success
      ⟨⟨t.taskName, TaskStatus.disabled, 0⟩ :: r.outcomes, r.registry, r.success⟩
    else if depUnmet t.dependsOn registry then
      ⟨[⟨t.taskName, TaskStatus.skipped, 0⟩], registry, false⟩
    else
      let res := attemptLoop t.action 0 t.retries
      if res.1 then
        let r := scriptRunnerTasks rest (t.taskName :: registry) success
        ⟨⟨t.taskName, TaskStatus.succeeded, res.2⟩ :: r.outcomes, r.registry, r.success⟩
      else
        ⟨[⟨t.taskName, TaskStatus.failed, res.2⟩], registry, false⟩

/-- When every attempt in the allowed range fails, the retry loop
reports failure after exactly one invocation per allowed attempt. -/
theorem attemptLoop_all_fail (action : Nat → Bool) :
    ∀ r a, (∀ k, a ≤ k → k ≤ a + r → action k = false) →
      attemptLoop action a r = (false, a + r + 1) := by
  intro r
  induction r with
  | zero =>
      intro a h
      have h0 := h a (le_refl a) (by omega)
      simp [attemptLoop, h0]
  | succ n ih =>
      intro a h
      have h0 := h a (le_refl a) (by omega)
      have hrest := ih (a + 1) (fun k hk1 hk2 => h k (by omega) (by omega))
      simp [attemptLoop, h0, hrest]
      omega

/-- Once the success flag is false it stays false for the rest of a
run_script.py run: no branch ever resets it to true. -/
theorem runScriptTasks_success_false (l : List TaskSpec) :
    ∀ registry, (runScriptTasks l registry false).success = false := by
  induction l with
  | nil => intro registry; rfl
  | cons t rest ih =>
      intro registry
      simp only [runScriptTasks]
      by_cases he : t.enabled = false
      · simp [he, ih]
      · simp only [he, if_false]
        by_cases hd : depUnmet t.dependsOn registry
        · simp [hd, ih]
        · simp only [hd, if_false]
          by_cases hp : (attemptLoop t.action 0 t.retries).1
          · simp [hp, ih]
          · simp [hp]

/--
A fully processed prefix composes: if the run_script.py loop processed
pre without recording any FAILED outcome (the only halting branch), then
running pre ++ post first yields the outcomes of pre and then continues
with post from the registry and success flag pre left behind.
-/
theorem runScriptTasks_append (pre post : List TaskSpec) :
    ∀ registry success,
      (∀ o ∈ (runScriptTasks pre registry success).outcomes,
        o.status ≠ TaskStatus.failed) →
      runScriptTasks (pre ++ post) registry success =
        ⟨(runScriptTasks pre registry success).outcomes
            ++ (runScriptTasks post (runScriptTasks pre registry success).registry
                (runScriptTasks pre registry success).success).outcomes,
          (runScriptTasks post (runScriptTasks pre registry success).registry
            (runScriptTasks pre registry success).success).registry,
          (runScriptTasks post (runScriptTasks pre registry success).registry
            (runScriptTasks pre registry success).success).success⟩ := by
  induction pre with
  | nil => intro registry success _; rfl
  | cons t rest ih =>
      intro registry success hno
      by_cases he : t.enabled = false
      · have hr := ih registry success (by
          intro o ho
          refine hno o ?_
          simp [runScriptTasks, he]
          exact Or.inr ho)
        simp [runScriptTasks, he, hr]
      · by_cases hd : depUnmet t.dependsOn registry
        · have hr := ih registry false (by
            intro o ho
            refine hno o ?_
            simp [runScriptTasks, he, hd]
            exact Or.inr ho)
          simp [runScriptTasks, he, hd, hr]
        · by_cases hp : (attemptLoop t.action 0 t.retries).1
          · have hr := ih (t.taskName :: registry) success (by
              intro o ho
              refine hno o ?_
              simp [runScriptTasks, he, hd, hp]
              exact Or.inr ho)
            simp [runScriptTasks, he, hd, hp, hr]
          · exfalso
            have : (⟨t.taskName, TaskStatus.failed,
                (attemptLoop t.action 0 t.retries).2⟩ : TaskOutcome)
                ∈ (runScriptTasks (t :: rest) registry success).outcomes := by
              simp [runScriptTasks, he, hd, hp]
            exact hno _ this rfl

/--
A fully processed prefix composes for the script_runner.py loop: its
halting branches are the unmet-dependency break (recorded as skipped)
and the exhausted-retry break (recorded as failed), so a prefix whose
outcomes contain neither continues into the suffix.
-/
theorem scriptRunnerTasks_append (pre post : List TaskSpec) :
    ∀ registry success,
      (∀ o ∈ (scriptRunnerTasks pre registry success).outcomes,
        o.status ≠ TaskStatus.failed ∧ o.status ≠ TaskStatus.skipped) →
      scriptRunnerTasks (pre ++ post) registry success =
        ⟨(scriptRunnerTasks pre registry success).outcomes
            ++ (scriptRunnerTasks post (scriptRunnerTasks pre registry success).registry
                (scriptRunnerTasks pre registry success).success).outcomes,
          (scriptRunnerTasks post (scriptRunnerTasks pre registry success).registry
            (scriptRunnerTasks pre registry success).success).registry,
          (scriptRunnerTasks post (scriptRunnerTasks pre registry success).registry
            (scriptRunnerTasks pre registry success).success).success⟩ := by
  induction pre with
  | nil => intro registry success _; rfl
  | cons t rest ih =>
      intro registry success hno
      by_cases he : t.enabled = false
      · have hr := ih registry success (by
          intro o ho
          refine hno o ?_
          simp [scriptRunnerTasks, he]
          exact Or.inr ho)
        simp [scriptRunnerTasks, he, hr]
      · by_cases hd : depUnmet t.dependsOn registry
        · exfalso
          have : (⟨t.taskName, TaskStatus.skipped, 0⟩ : TaskOutcome)
              ∈ (scriptRunnerTasks (t :: rest) registry success).outcomes := by
            simp [scriptRunnerTasks, he, hd]
          exact (hno _ this).2 rfl
        · by_cases hp : (attemptLoop t.action 0 t.retries).1
          · have hr := ih (t.taskName :: registry) success (by
              intro o ho
              refine hno o ?_
              simp [scriptRunnerTasks, he, hd, hp]
              exact Or.inr ho)
            simp [scriptRunnerTasks, he, hd, hp, hr]
          · exfalso
            have : (⟨t.taskName, TaskStatus.failed,
                (attemptLoop t.action 0 t.retries).2⟩ : TaskOutcome)
                ∈ (scriptRunnerTasks (t :: rest) registry success).outcomes := by
              simp [scriptRunnerTasks, he, hd, hp]
            exact (hno _ this).1 rfl

/--
C3 counterexample.  The claim says the orchestrator continues to the
next task after an unmet dependency; the script_runner.py revision
instead breaks out of the loop: on a run whose first task t1 depends on
an absent task and whose second task t2 would succeed, the run stops
after recording t1 as skipped — t2 gets no outcome and its action is
never invoked.
-/
theorem scriptRunner_dependency_halts_example :
    scriptRunnerTasks
      [⟨"t1", true, some "t0", 0, fun _ => true⟩,
       ⟨"t2", true, none, 0, fun _ => true⟩] [] true
      = ⟨[⟨"t1", TaskStatus.skipped, 0⟩], [], false⟩ := by
  rfl

/--
C3 amended: on an enabled task whose dependency is not in the succeeded
registry, the run_script.py orchestrator records it as SKIPPED, marks
the overall run failed, and continues with the remaining tasks from the
unchanged registry; the script_runner.py orchestrator instead marks the
run failed and halts immediately, so no later task runs.
-/
theorem dependency_skip_behaviour
    (t : TaskSpec) (rest : List TaskSpec) (registry : List String) (success : Bool)
    (hen : t.enabled = true) (hd : depUnmet t.dependsOn registry = true) :
    runScriptTasks (t :: rest) registry success
      = ⟨⟨t.taskName, TaskStatus.skipped, 0⟩
            :: (runScriptTasks rest registry false).outcomes,
          (runScriptTasks rest registry false).registry,
          (runScriptTasks rest registry false).success⟩
    ∧ (runScriptTasks (t :: rest) registry success).success = false
    ∧ scriptRunnerTasks (t :: rest) registry success
      = ⟨[⟨t.taskName, TaskStatus.skipped, 0⟩], registry, false⟩ := by
  have hne : ¬ t.enabled = false := by simp [hen]
  refine ⟨?_, ?_, ?_⟩
  · simp [runScriptTasks, hne, hd]
  · simp [runScriptTasks, hne, hd, runScriptTasks_success_false]
  · simp [scriptRunnerTasks, hne, hd]

/--
C3 amended witness: the amended theorem applied to the concrete run
whose first task depends on an absent task; the run_script.py loop
continues and still executes t2 while the overall run is failed.
-/
theorem dependency_skip_behaviour_witness :
    runScriptTasks
      [⟨"t1", true, some "t0", 0, fun _ => true⟩,
       ⟨"t2", true, none, 0, fun _ => true⟩] [] true
      = ⟨[⟨"t1", TaskStatus.skipped, 0⟩, ⟨"t2", TaskStatus.succeeded, 1⟩],
          ["t2"], false⟩ := by
  have h := dependency_skip_behaviour
    ⟨"t1", true, some "t0", 0, fun _ => true⟩
    [⟨"t2", true, none, 0, fun _ => true⟩] [] true rfl rfl
  rw [h.1]
  rfl

/--
C5: in both orchestrators, once the run reaches an enabled task with its
dependency met whose action fails on every one of its retries + 1
attempts, the run records that task as FAILED with retries + 1
invocations, the final success flag is false, and the outcome list ends
there — the remaining tasks contribute no outcome, so no later task in
the list is ever invoked.  The position of the failing task is
arbitrary: pre is any already-processed prefix that did not halt.
-/
theorem exhausted_retries_halt
    (pre rest : List TaskSpec) (t : TaskSpec) (registry : List String) (success : Bool)
    (hen : t.enabled = true)
    (hfail : ∀ k, k ≤ t.retries → t.action k = false) :
    ((∀ o ∈ (runScriptTasks pre registry success).outcomes,
        o.status ≠ TaskStatus.failed) →
      depUnmet t.dependsOn (runScriptTasks pre registry success).registry = false →
      runScriptTasks (pre ++ t :: rest) registry success
        = ⟨(runScriptTasks pre registry success).outcomes
              ++ [⟨t.taskName, TaskStatus.failed, t.retries + 1⟩],
            (runScriptTasks pre registry success).registry, false⟩)
    ∧ ((∀ o ∈ (scriptRunnerTasks pre registry success).outcomes,
        o.status ≠ TaskStatus.failed ∧ o.status ≠ TaskStatus.skipped) →
      depUnmet t.dependsOn (scriptRunnerTasks pre registry success).registry = false →
      scriptRunnerTasks (pre ++ t :: rest) registry success
        = ⟨(scriptRunnerTasks pre registry success).outcomes
              ++ [⟨t.taskName, TaskStatus.failed, t.retries + 1⟩],
            (scriptRunnerTasks pre registry success).registry, false⟩) := by
  have hne : ¬ t.enabled = false := by simp [hen]
  have hres : attemptLoop t.action 0 t.retries = (false, t.retries + 1) := by
    have h := attemptLoop_all_fail t.action t.retries 0
      (fun k h1 h2 => hfail k (by omega))
    simpa using h
  constructor
  · intro hpre hdep
    rw [runScriptTasks_append pre (t :: rest) registry success hpre]
    have hstep : runScriptTasks (t :: rest)
        (runScriptTasks pre registry success).registry
        (runScriptTasks pre registry success).success
        = ⟨[⟨t.taskName, TaskStatus.failed, t.retries + 1⟩],
            (runScriptTasks pre registry success).registry, false⟩ := by
      simp [runScriptTasks, hne, hdep, hres]
    rw [hstep]
  · intro hpre hdep
    rw [scriptRunnerTasks_append pre (t :: rest) registry success hpre]
    have hstep : scriptRunnerTasks (t :: rest)
        (scriptRunnerTasks pre registry success).registry
        (scriptRunnerTasks pre registry success).success
        = ⟨[⟨t.taskName, TaskStatus.failed, t.retries + 1⟩],
            (scriptRunnerTasks pre registry success).registry, false⟩ := by
      simp [scriptRunnerTasks, hne, hdep, hres]
    rw [hstep]

/--
C5 witness: the halt theorem applied to a concrete three-task run whose
middle task has max_retries = 0 and fails its single attempt; in both
orchestrators the run ends after recording that failure, the final flag
is false, and the third task never appears in the outcomes.
-/
theorem exhausted_retries_halt_witness :
    runScriptTasks
      ([⟨"a", true, none, 0, fun _ => true⟩]
        ++ ⟨"b", true, none, 0, fun _ => false⟩
          :: [⟨"c", true, none, 0, fun _ => true⟩]) [] true
      = ⟨[⟨"a", TaskStatus.succeeded, 1⟩, ⟨"b", TaskStatus.failed, 1⟩],
          ["a"], false⟩
    ∧ scriptRunnerTasks
      ([⟨"a", true, none, 0, fun _ => true⟩]
        ++ ⟨"b", true, none, 0, fun _ => false⟩
          :: [⟨"c", true, none, 0, fun _ => true⟩]) [] true
      = ⟨[⟨"a", TaskStatus.succeeded, 1⟩, ⟨"b", TaskStatus.failed, 1⟩],
          ["a"], false⟩ := by
  have h := exhausted_retries_halt
    [⟨"a", true, none, 0, fun _ => true⟩]
    [⟨"c", true, none, 0, fun _ => true⟩]
    ⟨"b", true, none, 0, fun _ => false⟩ [] true rfl
    (fun k hk => rfl)
  constructor
  · calc runScriptTasks _ [] true
        = _ := h.1 (by decide) rfl
      _ = _ := rfl
  · calc scriptRunnerTasks _ [] true
        = _ := h.2 (by decide) rfl
      _ = _ := rfl

/-! ## Stage-and-merge loader -/

/--
One database session as seen by upload_to_pg: the durable state of the
target table, the session view of it (uncommitted work included), and
how many commits have been issued on the session.
-/
structure PgSession (α : Type) where
  committed : α
  pending : α
  commits : Nat
deriving Repr, DecidableEq

/--
Embedding of PostgresConnector.upload_to_pg
(financial_data_1_ethereum/connectors/postgresql_connector.py, lines
261-350).  The five steps run in source order on one session: CREATE
TEMP TABLE, pd.read_csv, cur.copy_from, MERGE INTO, DROP TABLE, each
modelled as a fallible operation; conn.commit() runs once, after the
last step.  A raised exception leaves the with-block, which per psycopg2
semantics rolls the open transaction back: the pending work is discarded
and no commit is issued.
-/
def uploadToPg {α β ε : Type}
    (createTempTable : α → Except ε α)
    (readCsv : Except ε β)
    (copyFrom : β → α → Except ε α)
    (mergeInto : α → Except ε α)
    (dropTempTable : α → Except ε α)
    (s : PgSession α) : Option ε × PgSession α :=
  match createTempTable s.pending with
  | Except.error e => (some e, ⟨s.committed, s.committed, s.commits⟩)
  | Except.ok p1 =>
    match readCsv with
    | Except.error e => (some e, ⟨s.committed, s.committed, s.commits⟩)
    | Except.ok b =>
      match copyFrom b p1 with
      | Except.error e => (some e, ⟨s.committed, s.committed, s.commits⟩)
      | Except.ok p2 =>
        match mergeInto p2 with
        | Except.error e => (some e, ⟨s.committed, s.committed, s.commits⟩)
        | Except.ok p3 =>
          match dropTempTable p3 with
          | Except.error e => (some e, ⟨s.committed, s.committed, s.commits⟩)
          | Except.ok p4 => (none, ⟨p4, p4, s.commits + 1⟩)

/--
C6: upload_to_pg issues exactly one commit, and only when staging-table
creation, CSV read, bulk load, merge and staging-table drop all
succeeded on the session; when any step raises, the exception is
surfaced, no commit is issued and the durable target state is exactly
what it was before the call — a batch is never partially applied.
-/
theorem uploadToPg_transactional {α β ε : Type}
    (createTempTable : α → Except ε α) (readCsv : Except ε β)
    (copyFrom : β → α → Except ε α) (mergeInto dropTempTable : α → Except ε α)
    (s : PgSession α) :
    (∀ (e : ε) (s' : PgSession α),
      uploadToPg createTempTable readCsv copyFrom mergeInto dropTempTable s
        = (some e, s') → s'.committed = s.committed ∧ s'.commits = s.commits)
    ∧ (∀ s' : PgSession α,
      uploadToPg createTempTable readCsv copyFrom mergeInto dropTempTable s
        = (none, s') →
      s'.commits = s.commits + 1
      ∧ ∃ p1 b p2 p3 p4,
          createTempTable s.pending = Except.ok p1
          ∧ readCsv = Except.ok b
          ∧ copyFrom b p1 = Except.ok p2
          ∧ mergeInto p2 = Except.ok p3
          ∧ dropTempTable p3 = Except.ok p4
          ∧ s'.committed = p4) := by
  constructor
  · intro e' s' h
    unfold uploadToPg at h
    cases h1 : createTempTable s.pending with
    | error e =>
        simp only [h1] at h
        simp only [Prod.mk.injEq] at h
        rw [← h.2]
        exact ⟨rfl, rfl⟩
    | ok p1 =>
        simp only [h1] at h
        cases h2 : readCsv with
        | error e =>
            simp only [h2] at h
            simp only [Prod.mk.injEq] at h
            rw [← h.2]
            exact ⟨rfl, rfl⟩
        | ok b =>
            simp only [h2] at h
            cases h3 : copyFrom b p1 with
            | error e =>
                simp only [h3] at h
                simp only [Prod.mk.injEq] at h
                rw [← h.2]
                exact ⟨rfl, rfl⟩
            | ok p2 =>
                simp only [h3] at h
                cases h4 : mergeInto p2 with
                | error e =>
                    simp only [h4] at h
                    simp only [Prod.mk.injEq] at h
                    rw [← h.2]
                    exact ⟨rfl, rfl⟩
                | ok p3 =>
                    simp only [h4] at h
                    cases h5 : dropTempTable p3 with
                    | error e =>
                        simp only [h5] at h
                        simp only [Prod.mk.injEq] at h
                        rw [← h.2]
                        exact ⟨rfl, rfl⟩
                    | ok p4 =>
                        simp only [h5] at h
                        simp at h
  · intro s' h
    unfold uploadToPg at h
    cases h1 : createTempTable s.pending with
    | error e => simp only [h1] at h; simp at h
    | ok p1 =>
        simp only [h1] at h
        cases h2 : readCsv with
        | error e => simp only [h2] at h; simp at h
        | ok b =>
            simp only [h2] at h
            cases h3 : copyFrom b p1 with
            | error e => simp only [h3] at h; simp at h
            | ok p2 =>
                simp only [h3] at h
                cases h4 : mergeInto p2 with
                | error e => simp only [h4] at h; simp at h
                | ok p3 =>
                    simp only [h4] at h
                    cases h5 : dropTempTable p3 with
                    | error e => simp only [h5] at h; simp at h
                    | ok p4 =>
                        simp only [h5] at h
                        simp only [Prod.mk.injEq] at h
                        exact ⟨by rw [← h.2], p1, b, p2, p3, p4, rfl, rfl, h3,
                          h4, h5, by rw [← h.2]⟩

/--
C6 witness: the transactional theorem applied to a concrete session
holding the single row 5 with zero prior commits.  With all five steps
succeeding and the merge appending row 7, exactly one commit is issued;
with the merge raising instead, the committed target still holds only
row 5.
-/
theorem uploadToPg_transactional_witness :
    (uploadToPg (fun t => (Except.ok t : Except String (List Nat)))
      (Except.ok ([1, 2] : List Nat))
      (fun _ t => Except.ok t) (fun t => Except.ok (t ++ [7]))
      (fun t => Except.ok t)
      (⟨[5], [5], 0⟩ : PgSession (List Nat))).2.commits = 0 + 1
    ∧ (uploadToPg (fun t => (Except.ok t : Except String (List Nat)))
      (Except.ok ([1, 2] : List Nat))
      (fun _ t => Except.ok t)
      (fun _ => (Except.error "merge failed" : Except String (List Nat)))
      (fun t => Except.ok t)
      (⟨[5], [5], 0⟩ : PgSession (List Nat))).2.committed = [5] := by
  constructor
  · exact ((uploadToPg_transactional
      (fun t => (Except.ok t : Except String (List Nat)))
      (Except.ok ([1, 2] : List Nat))
      (fun _ t => Except.ok t) (fun t => Except.ok (t ++ [7]))
      (fun t => Except.ok t) ⟨[5], [5], 0⟩).2 _ rfl).1
  · exact ((uploadToPg_transactional
      (fun t => (Except.ok t : Except String (List Nat)))
      (Except.ok ([1, 2] : List Nat))
      (fun _ t => Except.ok t)
      (fun _ => (Except.error "merge failed" : Except String (List Nat)))
      (fun t => Except.ok t) ⟨[5], [5], 0⟩).1 "merge failed" _ rfl).1

/-! ## Worker upload wrapper -/

/--
Observable outcome of one ScriptWorker.upload_to_dwh call: the status
field the worker sets, the exception the caller sees (none for a normal
return), whether the audit update was attempted, whether upload_to_pg
was invoked at all (the only DML against the target), and whether the
output file still exists afterwards.
-/
structure DwhResult (ε : Type) where
  status : Option String
  raised : Option ε
  updateAttempted : Bool
  dmlAttempted : Bool
  fileExistsAfter : Bool
deriving Repr, DecidableEq

/--
Embedding of ScriptWorker.upload_to_dwh
(financial_data_1_ethereum/custom_code/script_worker.py, lines 181-250).
A missing file returns status Complete before the try block, so no DML
runs and the finally clause is not reached.  Otherwise upload_to_pg runs
(its outcome is the uploadResult argument); on failure the status is set
to Error, the audit update is attempted with its own outcome swallowed
after logging, and the original exception is re-raised.  The finally
clause removes the file when delete_output is set and the removal
succeeds, swallowing removal errors.
-/
def uploadToDwh {ε υ : Type}
    (fileExists deleteOutput removeOk : Bool)
    (uploadResult : Except ε Unit)
    (updateResult : Except υ Unit) : DwhResult ε :=
  if fileExists = false then
    ⟨some "Complete", none, false, false, false⟩
  else
    let fileAfter := if deleteOutput && removeOk then false else true
    match uploadResult with
    | Except.ok _ => ⟨some "Complete", none, false, true, fileAfter⟩
    | Except.error e =>
        match updateResult with
        | Except.ok _ => ⟨some "Error", some e, true, true, fileAfter⟩
        | Except.error _ => ⟨some "Error", some e, true, true, fileAfter⟩

/--
ScriptWorker.get_data writes its output CSV only when the extracted
dataframe is non-empty (script_worker.py, lines 102-176): an empty batch
leaves no file for the upload step to find.
-/
def getDataWritesFile (numRecords : Nat) : Bool :=
  decide (0 < numRecords)

/--
C7: whenever the upload step fails with an exception, the run status is
set to Error, the audit update to that status is attempted, and the
exception the caller sees is the original upload exception — for every
outcome of the audit update, whose own failure is logged and swallowed.
-/
theorem uploadToDwh_error_propagation {ε υ : Type}
    (e : ε) (u : Except υ Unit) (deleteOutput removeOk : Bool) :
    (uploadToDwh true deleteOutput removeOk (Except.error e) u).status = some "Error"
    ∧ (uploadToDwh true deleteOutput removeOk (Except.error e) u).updateAttempted = true
    ∧ (uploadToDwh true deleteOutput removeOk (Except.error e) u).raised = some e := by
  cases u <;> exact ⟨rfl, rfl, rfl⟩

/--
C9: with the source file absent — which is exactly what an empty batch
produces, since get_data writes no file for zero records — upload_to_dwh
performs no DML, sets status Complete and raises nothing; a load failure
is observably distinct, carrying status Error and the raised exception.
-/
theorem uploadToDwh_missing_file_noop {ε υ : Type}
    (deleteOutput removeOk : Bool) (u : Except ε Unit) (r : Except υ Unit) :
    getDataWritesFile 0 = false
    ∧ uploadToDwh false deleteOutput removeOk u r
        = ⟨some "Complete", none, false, false, false⟩
    ∧ (∀ e : ε,
        (uploadToDwh true deleteOutput removeOk (Except.error e) r).status
          = some "Error"
        ∧ (uploadToDwh true deleteOutput removeOk (Except.error e) r).raised
          = some e) := by
  refine ⟨rfl, rfl, fun e => ?_⟩
  cases r <;> exact ⟨rfl, rfl⟩

/--
C10: when delete_output is set and the upload raises, the finally clause
removes the output file before the original exception propagates; an
immediate retry of the same task therefore finds no file, performs no
DML, reports status Complete and raises nothing — the retry masks the
original load failure.
-/
theorem uploadToDwh_retry_masks_failure {ε υ : Type}
    (e : ε) (r : Except υ Unit) :
    (uploadToDwh true true true (Except.error e) r).raised = some e
    ∧ (uploadToDwh true true true (Except.error e) r).fileExistsAfter = false
    ∧ uploadToDwh (uploadToDwh true true true (Except.error e) r).fileExistsAfter
        true true (Except.error e) r
      = ⟨some "Complete", none, false, false, false⟩ := by
  cases r <;> exact ⟨rfl, rfl, rfl⟩

/-! ## Observed date-range clamping -/

/--
The Python builtin min over a list, or the min of a pandas datetime
column: undefined (an exception, or NaT) on an empty list, otherwise the
least element.
-/
def pyMin : List Int → Option Int
  | [] => none
  | x :: xs => some (xs.foldl min x)

/-- The Python builtin max over a list; none on an empty list. -/
def pyMax : List Int → Option Int
  | [] => none
  | x :: xs => some (xs.foldl max x)

/-- Per-column minima, as built by the date_min_list comprehension in
process_dataframe_date_ranges; fails when some column is empty. -/
def columnMins : List (List Int) → Option (List Int)
  | [] => some []
  | c :: cs =>
    match pyMin c, columnMins cs with
    | some m, some ms => some (m :: ms)
    | _, _ => none

/-- Per-column maxima, as built by the date_max_list comprehension. -/
def columnMaxs : List (List Int) → Option (List Int)
  | [] => some []
  | c :: cs =>
    match pyMax c, columnMaxs cs with
    | some m, some ms => some (m :: ms)
    | _, _ => none

/-- Steps 2 and 3 of process_dataframe_date_ranges: the overall
calculated_min_date and calculated_max_date of the batch across the
configured date columns. -/
def calculatedDateRange (cols : List (List Int)) : Option (Int × Int) :=
  match columnMins cols, columnMaxs cols with
  | some mins, some maxs =>
    match pyMin mins, pyMax maxs with
    | some cmin, some cmax => some (cmin, cmax)
    | _, _ => none
  | _, _ => none

/--
Embedding of EtlUtils.process_dataframe_date_ranges
(src/etls/utilities/etl_utils.py, lines 603-670), step 5: the value pair
persisted into the audit record is
(max(calculated_min_date, sdt), min(calculated_max_date, edt)).
-/
def processDataframeDateRanges (sdt edt : Int) (cols : List (List Int)) :
    Option (Int × Int) :=
  (calculatedDateRange cols).map fun r => (max r.1 sdt, min r.2 edt)

/-- Folding min over a list only lowers the accumulator. -/
theorem foldl_min_le_init (l : List Int) : ∀ x : Int, l.foldl min x ≤ x := by
  induction l with
  | nil => intro x; simp
  | cons y ys ih =>
      intro x
      simp only [List.foldl_cons]
      exact le_trans (ih (min x y)) (min_le_left x y)

/-- Folding max over a list only raises the accumulator. -/
theorem le_foldl_max_init (l : List Int) : ∀ x : Int, x ≤ l.foldl max x := by
  induction l with
  | nil => intro x; simp
  | cons y ys ih =>
      intro x
      simp only [List.foldl_cons]
      exact le_trans (le_max_left x y) (ih (max x y))

/-- Whenever the calculated date range of a batch exists, its min does
not exceed its max: both bounds are anchored at the first entry of the
first date column. -/
theorem calculatedDateRange_min_le_max (cols : List (List Int)) (cmin cmax : Int)
    (hc : calculatedDateRange cols = some (cmin, cmax)) : cmin ≤ cmax := by
  cases cols with
  | nil => simp [calculatedDateRange, columnMins, columnMaxs, pyMin, pyMax] at hc
  | cons c cs =>
    cases c with
    | nil => simp [calculatedDateRange, columnMins, columnMaxs, pyMin, pyMax] at hc
    | cons x xs =>
      cases hms : columnMins cs with
      | none => simp [calculatedDateRange, columnMins, pyMin, hms] at hc
      | some ms =>
        cases hMs : columnMaxs cs with
        | none => simp [calculatedDateRange, columnMins, columnMaxs, pyMin, pyMax,
            hms, hMs] at hc
        | some Ms =>
          have hc' : cmin = ms.foldl min (xs.foldl min x)
              ∧ cmax = Ms.foldl max (xs.foldl max x) := by
            simp [calculatedDateRange, columnMins, columnMaxs, pyMin, pyMax,
              hms, hMs] at hc
            exact ⟨hc.1.symm, hc.2.symm⟩
          rw [hc'.1, hc'.2]
          have h1 : ms.foldl min (xs.foldl min x) ≤ xs.foldl min x :=
            foldl_min_le_init ms _
          have h2 : xs.foldl min x ≤ x := foldl_min_le_init xs x
          have h3 : x ≤ xs.foldl max x := le_foldl_max_init xs x
          have h4 : xs.foldl max x ≤ Ms.foldl max (xs.foldl max x) :=
            le_foldl_max_init Ms _
          omega

/--
C8 counterexample.  The claim says the persisted pair always satisfies
window_start <= observed_min <= observed_max <= window_end, even for
raw data outside the window; but for window [0, 10] and a batch whose
single date column holds 20 and 30 (entirely after the window), the code
persists observed_min = max(20, 0) = 20 and observed_max
= min(30, 10) = 10, so observed_min exceeds both observed_max and
window_end.
-/
theorem processDataframeDateRanges_outside_window_example :
    processDataframeDateRanges 0 10 [[20, 30]] = some (20, 10)
    ∧ ¬ ((20 : Int) ≤ 10) := by
  exact ⟨rfl, by decide⟩

/--
C8 amended: the persisted pair always satisfies
window_start <= observed_min and observed_max <= window_end, and the
full chain window_start <= observed_min <= observed_max <= window_end
holds whenever the window is well formed and the batch overlaps it
(calculated_min <= window_end and window_start <= calculated_max); a
batch lying entirely outside the window violates the chain, as the
counterexample shows.
-/
theorem processDataframeDateRanges_clamped
    (sdt edt cmin cmax : Int) (cols : List (List Int))
    (hc : calculatedDateRange cols = some (cmin, cmax)) :
    processDataframeDateRanges sdt edt cols = some (max cmin sdt, min cmax edt)
    ∧ sdt ≤ max cmin sdt
    ∧ min cmax edt ≤ edt
    ∧ (sdt ≤ edt → cmin ≤ edt → sdt ≤ cmax → max cmin sdt ≤ min cmax edt) := by
  have hle := calculatedDateRange_min_le_max cols cmin cmax hc
  refine ⟨by simp [processDataframeDateRanges, hc], le_max_right cmin sdt,
    min_le_right cmax edt, fun h1 h2 h3 => ?_⟩
  omega

/--
C8 amended witness: the clamping theorem applied to the window [0, 10]
and the batch column holding 2 and 5, which overlaps the window; the
persisted pair is (2, 5) and the full chain 0 <= 2 <= 5 <= 10 holds.
-/
theorem processDataframeDateRanges_clamped_witness :
    processDataframeDateRanges 0 10 [[2, 5]] = some (max 2 0, min 5 10)
    ∧ (0 : Int) ≤ max 2 0
    ∧ max (2 : Int) 0 ≤ min 5 10
    ∧ min (5 : Int) 10 ≤ 10 := by
  have h := processDataframeDateRanges_clamped 0 10 2 5 [[2, 5]] rfl
  exact ⟨h.1, h.2.1, h.2.2.2 (by decide) (by decide) (by decide), h.2.2.1⟩

end DataWarehouse
